import Mathlib

/-!
Shallow embedding of the KaChow notification/order/payment microservices
(order-service, payment-service, notification-service, `src/*/src/index.js`).

Conventions of the embedding:
* The in-memory JS `Map` stores are association lists `List (String × α)`
  with `Map.get`/`Map.set` semantics (`storeGet` / `storeSet`; `set` replaces
  in place, or appends when the key is absent, matching insertion order).
* JS numbers that carry money amounts are embedded as rationals `ℚ`.
* Timestamps (`new Date().toISOString()`) are abstracted as `Nat` instants
  injected by the caller; their values are never branched on by the code.
* Remote `axios` calls are injected as `Except Unit (Nat × α)`: `.error ()`
  is a thrown transport error or timeout, `.ok (code, body)` is an HTTP
  response.  axios' default `validateStatus` throws for any status outside
  2xx, so a non-2xx response lands in the same `catch` as a transport
  failure; `callOk` reproduces exactly that.
* The simulated random outcomes (`Math.random()` in `processPayment` and
  `sendNotification`) are injected as booleans, as are the delivery outcomes
  of the two event-bus POSTs inside `emitEvent`.
-/

/-- Order status strings used by order-service
(`validStatuses = ['pending','confirmed','shipped','delivered','cancelled']`). -/
inductive OrderStatus
  | pending
  | confirmed
  | shipped
  | delivered
  | cancelled
deriving DecidableEq, Repr

/-- Payment status strings used by payment-service. -/
inductive PaymentStatus
  | pending
  | completed
  | failed
  | refunded
deriving DecidableEq, Repr

/-- Event type constants from `@kachow-organisation/shared-contracts`.
The constants actually used by the services under `src/` are
`ORDER_CREATED`, `ORDER_UPDATED`, `PAYMENT_PROCESSED`, `PAYMENT_FAILED` and
`USER_CREATED` (the service READMEs document their string values as
`OrderCreated`, `OrderUpdated`, `PaymentProcessed`, `PaymentFailed`,
`UserCreated`).  `PAYMENT_REFUNDED` is the `PaymentRefunded` event kind named
by the design document's event taxonomy; no service under `src/` ever emits
it. -/
inductive EventType
  | ORDER_CREATED
  | ORDER_UPDATED
  | PAYMENT_PROCESSED
  | PAYMENT_FAILED
  | USER_CREATED
  | PAYMENT_REFUNDED
deriving DecidableEq, Repr

/-- A line item of an order request: `{ productId, quantity, unitPrice }`. -/
structure Item where
  productId : String
  quantity : ℚ
  unitPrice : ℚ
deriving DecidableEq, Repr

/-- An order record as stored in the order-service `orders` map. -/
structure Order where
  id : String
  userId : String
  items : List Item
  totalAmount : ℚ
  status : OrderStatus
  paymentId : Option String
  createdAt : Nat
  updatedAt : Nat
deriving DecidableEq, Repr

/-- A payment record as stored in the payment-service `payments` map.
`transactionId` and `processedAt` start as `null`; `error` is set only on a
failed settlement; `refundedAt`/`refundTransactionId` only on refund. -/
structure Payment where
  id : String
  orderId : String
  amount : ℚ
  currency : String
  status : PaymentStatus
  paymentMethod : String
  createdAt : Option Nat
  processedAt : Option Nat
  transactionId : Option String
  error : Option String
  refundedAt : Option Nat
  refundTransactionId : Option String
deriving DecidableEq, Repr

/-- A user profile as served by user-service `GET /users/:id` (only the
fields the embedded code reads). -/
structure User where
  id : String
  fullName : String
deriving DecidableEq, Repr

/-- A notification record as stored in the notification-service map.
`ntype` embeds the JS field `type` (the channel: email/sms/push). -/
structure Notification where
  id : String
  userId : String
  ntype : String
  subject : String
  message : String
  status : String
  createdAt : Nat
  sentAt : Option Nat
deriving DecidableEq, Repr

/-- JS `Map.get`: first (and only, under `storeSet` discipline) binding. -/
def storeGet {α : Type} : List (String × α) → String → Option α
  | [], _ => none
  | (k', v') :: rest, k => if k' = k then some v' else storeGet rest k

/-- JS `Map.set`: replace the binding in place if the key exists, otherwise
append (insertion order). -/
def storeSet {α : Type} : List (String × α) → String → α → List (String × α)
  | [], k, v => [(k, v)]
  | (k', v') :: rest, k, v =>
      if k' = k then (k, v) :: rest else (k', v') :: storeSet rest k v

/-- axios resolves a call only when no transport error/timeout occurred and
the HTTP status is 2xx (default `validateStatus`); otherwise it throws and
the service's `catch` branch runs. -/
def callOk {α : Type} : Except Unit (Nat × α) → Option α
  | Except.error _ => none
  | Except.ok (code, body) => if 200 ≤ code ∧ code < 300 then some body else none

/-- Outcome of the two event-bus delivery attempts made by `emitEvent`
(POST to notification-service, POST to analytics-service). -/
structure DeliveryOutcome where
  notificationOk : Bool
  analyticsOk : Bool
deriving DecidableEq, Repr

/-- The two best-effort subscribers of the event fan-out. -/
inductive Subscriber
  | notificationService
  | analyticsService
deriving DecidableEq, Repr

/-- Kind-specific event payloads built by the services under `src/`. -/
inductive EventPayload
  | orderCreated (orderId userId : String) (totalAmount : ℚ) (items : List Item)
      (status : OrderStatus) (paymentId : Option String)
  | orderUpdated (orderId userId : String) (status previousStatus : OrderStatus)
  | paymentProcessed (paymentId orderId : String) (status : PaymentStatus)
      (amount : ℚ) (currency : String) (transactionId : Option String)
      (processedAt : Option Nat) (error : Option String)
  | paymentRefund (paymentId orderId reason : String) (amount : ℚ)
      (refundedAt : Nat) (refundTransactionId : String)
deriving DecidableEq, Repr

/-- The event envelope `{ eventId, eventType, timestamp, payload }`. -/
structure DomainEvent where
  eventId : String
  eventType : EventType
  timestamp : Nat
  payload : EventPayload
deriving DecidableEq, Repr

/-- One delivery attempt made by `emitEvent`: which subscriber was POSTed to
and whether that POST succeeded. -/
structure Attempt where
  subscriber : Subscriber
  event : DomainEvent
  delivered : Bool
deriving DecidableEq, Repr

/-- `emitEvent(eventType, payload)` of order-service and payment-service
(the two copies are line-for-line identical): builds the envelope, then
POSTs it to notification-service and to analytics-service, each in its own
`try`/`catch` with its own timeout, so a failure of either POST is logged
and swallowed; the function always returns the event. -/
def emitEvent (eventId : String) (now : Nat) (eventType : EventType)
    (payload : EventPayload) (out : DeliveryOutcome) :
    DomainEvent × List Attempt :=
  let event : DomainEvent :=
    { eventId := eventId, eventType := eventType, timestamp := now, payload := payload }
  (event,
    [ { subscriber := Subscriber.notificationService, event := event,
        delivered := out.notificationOk },
      { subscriber := Subscriber.analyticsService, event := event,
        delivered := out.analyticsOk } ])

/-- `calculateTotal(items)` of order-service:
`items.reduce((sum, item) => sum + item.quantity * item.unitPrice, 0)`. -/
def calculateTotal (items : List Item) : ℚ :=
  items.foldl (fun sum item => sum + item.quantity * item.unitPrice) 0

/-- Result of `POST /orders` as seen by the client. -/
inductive CreateOrderResult
  | invalidRequest
  | invalidUser
  | created (order : Order) (payment : Option Payment)
deriving DecidableEq, Repr

/-- Modelled from the spec: `CreateOrderRequestSchema` lives in the
`@kachow-organisation/shared-contracts` package, which is not under `src/`.
Per the design document the request is `{userId, items[]}` with `items`
non-empty and each line item carrying `quantity ≥ 1` and `unitPrice ≥ 0`. -/
def validCreateOrderRequest (userId : String) (items : List Item) : Prop :=
  userId ≠ "" ∧ items ≠ [] ∧
    ∀ item ∈ items, 1 ≤ item.quantity ∧ 0 ≤ item.unitPrice

instance (userId : String) (items : List Item) :
    Decidable (validCreateOrderRequest userId items) := by
  unfold validCreateOrderRequest
  infer_instance

/-- `POST /orders` of order-service (`app.post('/orders')`).
Steps, mirroring the JS: validate the body; `GET /users/:userId` (any
failure → 400 "Invalid user", nothing persisted); compute the total and
persist the order as `pending` with `paymentId: null`; `POST /payments`
(on a 2xx response record the payment id and set the status to `confirmed`
exactly when the payment's status is `completed`; on any throw — timeout,
transport error, or a non-2xx such as the 402 a declined payment returns —
continue without rolling back); emit `OrderCreated`; respond 201 with the
order (and the payment, when one was obtained). -/
def createOrder (store : List (String × Order)) (userId : String)
    (items : List Item) (userCall : Except Unit (Nat × User))
    (paymentCall : Except Unit (Nat × Payment))
    (orderId eventId : String) (now : Nat) (out : DeliveryOutcome) :
    List (String × Order) × CreateOrderResult × Option (DomainEvent × List Attempt) :=
  if ¬ validCreateOrderRequest userId items then
    (store, CreateOrderResult.invalidRequest, none)
  else
    match callOk userCall with
    | none => (store, CreateOrderResult.invalidUser, none)
    | some _user =>
        let totalAmount := calculateTotal items
        let order0 : Order :=
          { id := orderId, userId := userId, items := items,
            totalAmount := totalAmount, status := OrderStatus.pending,
            paymentId := none, createdAt := now, updatedAt := now }
        let store1 := storeSet store orderId order0
        match callOk paymentCall with
        | some payment =>
            let order1 : Order :=
              { order0 with
                  paymentId := some payment.id,
                  status :=
                    if payment.status = PaymentStatus.completed then
                      OrderStatus.confirmed
                    else OrderStatus.pending,
                  updatedAt := now }
            let store2 := storeSet store1 orderId order1
            let emitted := emitEvent eventId now EventType.ORDER_CREATED
              (EventPayload.orderCreated orderId userId totalAmount items
                order1.status order1.paymentId) out
            (store2, CreateOrderResult.created order1 (some payment), some emitted)
        | none =>
            let emitted := emitEvent eventId now EventType.ORDER_CREATED
              (EventPayload.orderCreated orderId userId totalAmount items
                order0.status order0.paymentId) out
            (store1, CreateOrderResult.created order0 none, some emitted)

/-- Result of `PUT /orders/:id/status` as seen by the client. -/
inductive UpdateStatusResult
  | notFound
  | invalidStatus
  | ok (order : Order)
deriving DecidableEq, Repr

/-- The membership test `validStatuses.includes(status)` of
`PUT /orders/:id/status`, as a parse of the request's status string. -/
def statusOfString : String → Option OrderStatus
  | "pending" => some OrderStatus.pending
  | "confirmed" => some OrderStatus.confirmed
  | "shipped" => some OrderStatus.shipped
  | "delivered" => some OrderStatus.delivered
  | "cancelled" => some OrderStatus.cancelled
  | _ => none

/-- `PUT /orders/:id/status` of order-service.  Mirrors the JS exactly:
unknown id → 404; a status string outside `validStatuses` → 400; otherwise
the new status is stored unconditionally — the code performs no check of
the current status against the requested one.  The JS mutates the stored
object (`order.status = status; order.updatedAt = ...`) *before* building
the `OrderUpdated` payload, whose `previousStatus` field therefore reads
the already-overwritten `order.status`. -/
def updateStatus (store : List (String × Order)) (id statusStr : String)
    (eventId : String) (now : Nat) (out : DeliveryOutcome) :
    List (String × Order) × UpdateStatusResult × Option (DomainEvent × List Attempt) :=
  match storeGet store id with
  | none => (store, UpdateStatusResult.notFound, none)
  | some order =>
      match statusOfString statusStr with
      | none => (store, UpdateStatusResult.invalidStatus, none)
      | some newStatus =>
          let order1 : Order := { order with status := newStatus, updatedAt := now }
          let store1 := storeSet store id order1
          let emitted := emitEvent eventId now EventType.ORDER_UPDATED
            (EventPayload.orderUpdated id order1.userId newStatus order1.status) out
          (store1, UpdateStatusResult.ok order1, some emitted)

/-- Response of `POST /payments`: HTTP status code plus the payment body the
service serialises (the body mirrors the fields of the stored record). -/
structure PaymentResponse where
  code : Nat
  payment : Payment
deriving DecidableEq, Repr

/-- `POST /payments` of payment-service: persist the record as `pending`,
run the simulated settlement (`processPayment`, success injected as
`processOk`), update the record to `completed` (with a transaction id) or
`failed` (with the decline reason), emit `PaymentProcessed`, and respond —
402 when the settlement failed, 201 otherwise. -/
def postPayments (store : List (String × Payment)) (orderId : String)
    (amount : ℚ) (currency paymentMethod : String) (processOk : Bool)
    (paymentId txnId eventId : String) (now : Nat) (out : DeliveryOutcome) :
    List (String × Payment) × PaymentResponse × (DomainEvent × List Attempt) :=
  let payment0 : Payment :=
    { id := paymentId, orderId := orderId, amount := amount,
      currency := currency, status := PaymentStatus.pending,
      paymentMethod := paymentMethod, createdAt := some now,
      processedAt := none, transactionId := none, error := none,
      refundedAt := none, refundTransactionId := none }
  let payment1 : Payment :=
    if processOk then
      { payment0 with
          status := PaymentStatus.completed,
          processedAt := some now, transactionId := some txnId }
    else
      { payment0 with
          status := PaymentStatus.failed,
          processedAt := some now,
          error := some "Payment declined by processor" }
  let store1 := storeSet (storeSet store paymentId payment0) paymentId payment1
  let emitted := emitEvent eventId now EventType.PAYMENT_PROCESSED
    (EventPayload.paymentProcessed paymentId orderId payment1.status amount
      payment1.currency payment1.transactionId payment1.processedAt
      payment1.error) out
  let code := if payment1.status = PaymentStatus.failed then 402 else 201
  (store1, { code := code, payment := payment1 }, emitted)

/-- Result of `POST /payments/:id/refund` as seen by the client. -/
inductive RefundResult
  | notFound
  | cannotRefund
  | refunded (payment : Payment)
deriving DecidableEq, Repr

/-- `POST /payments/:id/refund` of payment-service: 404 when the payment is
unknown; 400 "Cannot refund" unless `payment.status === 'completed'`;
otherwise set status `refunded`, record `refundedAt` and a fresh
`refundTransactionId`, and emit the refund event — the JS passes
`EventTypes.PAYMENT_FAILED` to `emitEvent`, with a payload carrying
`reason: 'refund'`. -/
def refundPayment (store : List (String × Payment)) (id : String)
    (txnId eventId : String) (now : Nat) (out : DeliveryOutcome) :
    List (String × Payment) × RefundResult × Option (DomainEvent × List Attempt) :=
  match storeGet store id with
  | none => (store, RefundResult.notFound, none)
  | some payment =>
      if payment.status ≠ PaymentStatus.completed then
        (store, RefundResult.cannotRefund, none)
      else
        let payment1 : Payment :=
          { payment with
              status := PaymentStatus.refunded,
              refundedAt := some now, refundTransactionId := some txnId }
        let store1 := storeSet store id payment1
        let emitted := emitEvent eventId now EventType.PAYMENT_FAILED
          (EventPayload.paymentRefund id payment.orderId "refund"
            payment.amount now txnId) out
        (store1, RefundResult.refunded payment1, some emitted)

/-- Result of `POST /notify` as seen by the client: the HTTP status code is
part of the `created` constructor because the endpoint answers 201 for both
delivery outcomes. -/
inductive NotifyResult
  | invalidRequest
  | userNotFound
  | created (code : Nat) (notification : Notification)
deriving DecidableEq, Repr

/-- Modelled from the spec: `NotificationRequestSchema` lives in the
`@kachow-organisation/shared-contracts` package, which is not under `src/`.
Per the design document the direct notification surface accepts
`{userId, channel, subject, message}` with `channel ∈ {email, sms, push}`. -/
def validNotifyRequest (userId ntype subject message : String) : Prop :=
  userId ≠ "" ∧ subject ≠ "" ∧ message ≠ "" ∧
    (ntype = "email" ∨ ntype = "sms" ∨ ntype = "push")

instance (userId ntype subject message : String) :
    Decidable (validNotifyRequest userId ntype subject message) := by
  unfold validNotifyRequest
  infer_instance

/-- `POST /notify` of notification-service: validate; `fetchUser` (which
returns `null` on any axios failure) → 404 when absent; persist the record
as `pending`; `sendNotification` (success injected as `delivered`, which in
the JS sets `result.sentAt` only on success); overwrite the record's status
with `sent`/`failed` and its `sentAt`; respond 201 in both cases. -/
def notify (store : List (String × Notification))
    (userId ntype subject message : String)
    (userCall : Except Unit (Nat × User)) (delivered : Bool)
    (notificationId : String) (now : Nat) :
    List (String × Notification) × NotifyResult :=
  if ¬ validNotifyRequest userId ntype subject message then
    (store, NotifyResult.invalidRequest)
  else
    match callOk userCall with
    | none => (store, NotifyResult.userNotFound)
    | some _user =>
        let n0 : Notification :=
          { id := notificationId, userId := userId, ntype := ntype,
            subject := subject, message := message, status := "pending",
            createdAt := now, sentAt := none }
        let n1 : Notification :=
          { n0 with
              status := if delivered then "sent" else "failed",
              sentAt := if delivered then some now else none }
        let store1 := storeSet (storeSet store notificationId n0) notificationId n1
        (store1, NotifyResult.created 201 n1)

/-- Pre-seeded order `ord-001` (`orders.set('ord-001', ...)`; ISO
timestamp strings are abstracted as the instants 0 and 1 throughout). -/
def seededOrder001 : Order :=
  { id := "ord-001", userId := "usr-001",
    items := [ { productId := "prod-001", quantity := 2, unitPrice := 29.99 },
               { productId := "prod-002", quantity := 1, unitPrice := 49.99 } ],
    totalAmount := 109.97, status := OrderStatus.confirmed,
    paymentId := some "pay-001", createdAt := 0, updatedAt := 0 }

/-- Pre-seeded order `ord-002` (`orders.set('ord-002', ...)`). -/
def seededOrder002 : Order :=
  { id := "ord-002", userId := "usr-002",
    items := [ { productId := "prod-003", quantity := 3, unitPrice := 19.99 } ],
    totalAmount := 59.97, status := OrderStatus.pending,
    paymentId := none, createdAt := 1, updatedAt := 1 }

/-- The pre-seeded order-service store. -/
def seededOrders : List (String × Order) :=
  [ ("ord-001", seededOrder001), ("ord-002", seededOrder002) ]

/-- Pre-seeded payment `pay-001` (`payments.set('pay-001', ...)`). -/
def seededPay001 : Payment :=
  { id := "pay-001", orderId := "ord-001", amount := 109.97,
    currency := "USD", status := PaymentStatus.completed,
    paymentMethod := "card", createdAt := none, processedAt := some 0,
    transactionId := some "txn_1234567890", error := none,
    refundedAt := none, refundTransactionId := none }

/-- The pre-seeded payment-service store. -/
def seededPayments : List (String × Payment) :=
  [ ("pay-001", seededPay001) ]

/-- Sample line items of the design document's end-to-end scenario:
`items: [{productId:"p1", quantity:2, unitPrice:29.99}]`. -/
def sampleItems : List Item :=
  [ { productId := "p1", quantity := 2, unitPrice := 29.99 } ]

/-- A resolved user-service call: 200 with a known user. -/
def sampleUserCall : Except Unit (Nat × User) :=
  Except.ok (200, { id := "usr-001", fullName := "John Doe" })

/-- The order record `POST /orders` persists at step 3, before the payment
call: status `pending`, `paymentId: null`, total computed once. -/
def pendingOrder (orderId userId : String) (items : List Item) (now : Nat) : Order :=
  { id := orderId, userId := userId, items := items,
    totalAmount := calculateTotal items, status := OrderStatus.pending,
    paymentId := none, createdAt := now, updatedAt := now }

/-- A completed payment record as `POST /payments` returns it on success. -/
def samplePayment : Payment :=
  { id := "pay-new", orderId := "ord-new", amount := 59.98,
    currency := "USD", status := PaymentStatus.completed,
    paymentMethod := "card", createdAt := some 7, processedAt := some 7,
    transactionId := some "txn_new", error := none,
    refundedAt := none, refundTransactionId := none }

/-! ## Theorems -/

theorem storeGet_storeSet_self {α : Type} (s : List (String × α)) (k : String) (v : α) :
    storeGet (storeSet s k v) k = some v := by
  induction s with
  | nil => simp [storeSet, storeGet]
  | cons hd tl ih =>
      by_cases h : hd.1 = k
      · simp [storeSet, storeGet, h]
      · simp [storeSet, storeGet, h, ih]

/-- `calculateTotal` computes exactly the sum of `quantity * unitPrice`
over the line items. -/
theorem calculateTotal_eq_sum (items : List Item) :
    calculateTotal items = (items.map fun item => item.quantity * item.unitPrice).sum := by
  have h : ∀ (l : List Item) (a : ℚ),
      l.foldl (fun sum item => sum + item.quantity * item.unitPrice) a =
        a + (l.map fun item => item.quantity * item.unitPrice).sum := by
    intro l
    induction l with
    | nil => intro a; simp
    | cons hd tl ih => intro a; simp [ih, add_assoc]
  simpa [calculateTotal] using h items 0

/-- Claim C3: when the identity lookup for `userId` fails (user not found,
timeout, or transport error — all of which make the awaited axios call
throw), `POST /orders` answers 400 "Invalid user" and returns before any
`orders.set`, so the order store is returned unchanged (in particular its
size is unchanged). -/
theorem createOrder_userFailure_no_order
    (store : List (String × Order)) (userId : String) (items : List Item)
    (userCall : Except Unit (Nat × User))
    (paymentCall : Except Unit (Nat × Payment))
    (orderId eventId : String) (now : Nat) (out : DeliveryOutcome)
    (hvalid : validCreateOrderRequest userId items)
    (hfail : callOk userCall = none) :
    createOrder store userId items userCall paymentCall orderId eventId now out =
      (store, CreateOrderResult.invalidUser, none) := by
  simp [createOrder, hvalid, hfail]

/-- Concrete instance of `createOrder_userFailure_no_order`: a valid request
against the seeded store with an unreachable user-service leaves the two
seeded orders untouched. -/
theorem createOrder_userFailure_no_order_witness :
    validCreateOrderRequest "usr-404" sampleItems ∧
    callOk (Except.error () : Except Unit (Nat × User)) = none ∧
    createOrder seededOrders "usr-404" sampleItems (Except.error ())
        (Except.error ()) "ord-x" "evt-x" 7 { notificationOk := true, analyticsOk := true } =
      (seededOrders, CreateOrderResult.invalidUser, none) :=
  ⟨by simp [validCreateOrderRequest, sampleItems]; norm_num, rfl,
    createOrder_userFailure_no_order seededOrders "usr-404" sampleItems
      (Except.error ()) (Except.error ()) "ord-x" "evt-x" 7
      { notificationOk := true, analyticsOk := true }
      (by simp [validCreateOrderRequest, sampleItems]; norm_num) rfl⟩

/-- Claim C2: when the payment call of `POST /orders` fails — a timeout or
transport error (`callOk _ = none` via `Except.error`), or an explicit
declined authorization (payment-service answers 402, which axios turns into
the same thrown error, last two conjuncts) — the order is not rolled back:
the store keeps the order with status `pending` and `paymentId: null`, and
the caller still gets the 201 response carrying that order (and no payment
result). -/
theorem createOrder_paymentFailure_soft
    (store : List (String × Order)) (userId : String) (items : List Item)
    (userCall : Except Unit (Nat × User))
    (paymentCall : Except Unit (Nat × Payment))
    (orderId eventId : String) (now : Nat) (out : DeliveryOutcome) (u : User)
    (hvalid : validCreateOrderRequest userId items)
    (huser : callOk userCall = some u)
    (hpay : callOk paymentCall = none) :
    (createOrder store userId items userCall paymentCall orderId eventId now out =
       (storeSet store orderId (pendingOrder orderId userId items now),
        CreateOrderResult.created (pendingOrder orderId userId items now) none,
        some (emitEvent eventId now EventType.ORDER_CREATED
          (EventPayload.orderCreated orderId userId (calculateTotal items) items
            OrderStatus.pending none) out))) ∧
    storeGet (createOrder store userId items userCall paymentCall orderId eventId now out).1
        orderId = some (pendingOrder orderId userId items now) ∧
    (∀ (pstore : List (String × Payment)) (oid : String) (amt : ℚ)
        (cur mth pid txn eid2 : String) (t2 : Nat) (out2 : DeliveryOutcome),
      (postPayments pstore oid amt cur mth false pid txn eid2 t2 out2).2.1.code = 402) ∧
    (∀ p : Payment, callOk (Except.ok (402, p) : Except Unit (Nat × Payment)) = none) := by
  refine ⟨?_, ?_, ?_, ?_⟩
  · simp [createOrder, hvalid, huser, hpay, pendingOrder]
  · simp [createOrder, hvalid, huser, hpay, pendingOrder, storeGet_storeSet_self]
  · intro pstore oid amt cur mth pid txn eid2 t2 out2
    simp [postPayments]
  · intro p
    simp [callOk]

/-- Concrete instance of `createOrder_paymentFailure_soft`: the scenario
order for `usr-001` with the payment call failing. -/
theorem createOrder_paymentFailure_soft_witness :
    validCreateOrderRequest "usr-001" sampleItems ∧
    callOk sampleUserCall = some { id := "usr-001", fullName := "John Doe" } ∧
    callOk (Except.error () : Except Unit (Nat × Payment)) = none ∧
    (createOrder seededOrders "usr-001" sampleItems sampleUserCall (Except.error ())
        "ord-new" "evt-1" 7 { notificationOk := true, analyticsOk := true }).2.1 =
      CreateOrderResult.created (pendingOrder "ord-new" "usr-001" sampleItems 7) none ∧
    storeGet (createOrder seededOrders "usr-001" sampleItems sampleUserCall (Except.error ())
        "ord-new" "evt-1" 7 { notificationOk := true, analyticsOk := true }).1 "ord-new" =
      some (pendingOrder "ord-new" "usr-001" sampleItems 7) ∧
    (pendingOrder "ord-new" "usr-001" sampleItems 7).status = OrderStatus.pending ∧
    (pendingOrder "ord-new" "usr-001" sampleItems 7).paymentId = none := by
  have hv : validCreateOrderRequest "usr-001" sampleItems := by
    simp [validCreateOrderRequest, sampleItems]; norm_num
  have h := createOrder_paymentFailure_soft seededOrders "usr-001" sampleItems
    sampleUserCall (Except.error ()) "ord-new" "evt-1" 7
    { notificationOk := true, analyticsOk := true }
    { id := "usr-001", fullName := "John Doe" } hv rfl rfl
  refine ⟨hv, rfl, rfl, ?_, h.2.1, rfl, rfl⟩
  rw [h.1]

/-- Claim C4: for every valid request that passes identity lookup, the
persisted order's `totalAmount` is `Σ quantity * unitPrice` over the line
items (computed once, by `calculateTotal`, whichever way the payment call
went — the later update never touches `totalAmount`); and on the scenario
items `[{quantity: 2, unitPrice: 29.99}]` the total is `59.98`. -/
theorem createOrder_totalAmount_eq_sum
    (store : List (String × Order)) (userId : String) (items : List Item)
    (userCall : Except Unit (Nat × User))
    (paymentCall : Except Unit (Nat × Payment))
    (orderId eventId : String) (now : Nat) (out : DeliveryOutcome) (u : User)
    (hvalid : validCreateOrderRequest userId items)
    (huser : callOk userCall = some u) :
    (∀ ord : Order,
      storeGet (createOrder store userId items userCall paymentCall orderId
          eventId now out).1 orderId = some ord →
      ord.totalAmount = (items.map fun item => item.quantity * item.unitPrice).sum) ∧
    calculateTotal sampleItems = 59.98 := by
  constructor
  · intro ord h
    cases hpc : callOk paymentCall with
    | none =>
        simp [createOrder, hvalid, huser, hpc, storeGet_storeSet_self] at h
        rw [← h]
        simp [calculateTotal_eq_sum]
    | some p =>
        simp [createOrder, hvalid, huser, hpc, storeGet_storeSet_self] at h
        rw [← h]
        simp [calculateTotal_eq_sum]
  · simp [calculateTotal, sampleItems]
    norm_num

/-- Concrete instance of `createOrder_totalAmount_eq_sum` on the scenario
order: the persisted total is the line-item sum, and equals `59.98`. -/
theorem createOrder_totalAmount_eq_sum_witness :
    validCreateOrderRequest "usr-001" sampleItems ∧
    callOk sampleUserCall = some { id := "usr-001", fullName := "John Doe" } ∧
    storeGet (createOrder seededOrders "usr-001" sampleItems sampleUserCall
        (Except.error ()) "ord-new" "evt-1" 7
        { notificationOk := true, analyticsOk := true }).1 "ord-new" =
      some (pendingOrder "ord-new" "usr-001" sampleItems 7) ∧
    (pendingOrder "ord-new" "usr-001" sampleItems 7).totalAmount =
      (sampleItems.map fun item => item.quantity * item.unitPrice).sum ∧
    calculateTotal sampleItems = 59.98 := by
  have hv : validCreateOrderRequest "usr-001" sampleItems := by
    simp [validCreateOrderRequest, sampleItems]; norm_num
  have h := createOrder_totalAmount_eq_sum seededOrders "usr-001" sampleItems
    sampleUserCall (Except.error ()) "ord-new" "evt-1" 7
    { notificationOk := true, analyticsOk := true }
    { id := "usr-001", fullName := "John Doe" } hv rfl
  have hs : storeGet (createOrder seededOrders "usr-001" sampleItems sampleUserCall
      (Except.error ()) "ord-new" "evt-1" 7
      { notificationOk := true, analyticsOk := true }).1 "ord-new" =
      some (pendingOrder "ord-new" "usr-001" sampleItems 7) := by
    simp [createOrder, hv, callOk, sampleUserCall, pendingOrder, storeGet_storeSet_self]
  exact ⟨hv, rfl, hs, h.1 _ hs, h.2⟩

/-- Claim C8: when the payment call of `POST /orders` resolves (2xx) with a
payment whose status is `completed`, the persisted order is updated to
status `confirmed` with `paymentId` equal to the returned payment's id, and
the 201 response carries that order together with the payment. -/
theorem createOrder_paymentSuccess_confirmed
    (store : List (String × Order)) (userId : String) (items : List Item)
    (userCall : Except Unit (Nat × User))
    (paymentCall : Except Unit (Nat × Payment))
    (orderId eventId : String) (now : Nat) (out : DeliveryOutcome)
    (u : User) (p : Payment)
    (hvalid : validCreateOrderRequest userId items)
    (huser : callOk userCall = some u)
    (hpay : callOk paymentCall = some p)
    (hstatus : p.status = PaymentStatus.completed) :
    (createOrder store userId items userCall paymentCall orderId eventId now out =
       (storeSet (storeSet store orderId (pendingOrder orderId userId items now)) orderId
          { pendingOrder orderId userId items now with
              paymentId := some p.id, status := OrderStatus.confirmed },
        CreateOrderResult.created
          { pendingOrder orderId userId items now with
              paymentId := some p.id, status := OrderStatus.confirmed }
          (some p),
        some (emitEvent eventId now EventType.ORDER_CREATED
          (EventPayload.orderCreated orderId userId (calculateTotal items) items
            OrderStatus.confirmed (some p.id)) out))) ∧
    storeGet (createOrder store userId items userCall paymentCall orderId
        eventId now out).1 orderId =
      some { pendingOrder orderId userId items now with
               paymentId := some p.id, status := OrderStatus.confirmed } ∧
    (some p.id ≠ (none : Option String)) := by
  refine ⟨?_, ?_, by simp⟩
  · simp [createOrder, hvalid, huser, hpay, hstatus, pendingOrder]
  · simp [createOrder, hvalid, huser, hpay, hstatus, pendingOrder, storeGet_storeSet_self]

/-- Concrete instance of `createOrder_paymentSuccess_confirmed`: the
scenario order with a completed payment ends `confirmed`, `paymentId`
pointing at the returned payment. -/
theorem createOrder_paymentSuccess_confirmed_witness :
    validCreateOrderRequest "usr-001" sampleItems ∧
    callOk sampleUserCall = some { id := "usr-001", fullName := "John Doe" } ∧
    callOk (Except.ok (201, samplePayment) : Except Unit (Nat × Payment)) =
      some samplePayment ∧
    samplePayment.status = PaymentStatus.completed ∧
    storeGet (createOrder seededOrders "usr-001" sampleItems sampleUserCall
        (Except.ok (201, samplePayment)) "ord-new" "evt-1" 7
        { notificationOk := true, analyticsOk := true }).1 "ord-new" =
      some { pendingOrder "ord-new" "usr-001" sampleItems 7 with
               paymentId := some samplePayment.id, status := OrderStatus.confirmed } ∧
    (createOrder seededOrders "usr-001" sampleItems sampleUserCall
        (Except.ok (201, samplePayment)) "ord-new" "evt-1" 7
        { notificationOk := true, analyticsOk := true }).2.1 =
      CreateOrderResult.created
        { pendingOrder "ord-new" "usr-001" sampleItems 7 with
            paymentId := some samplePayment.id, status := OrderStatus.confirmed }
        (some samplePayment) := by
  have hv : validCreateOrderRequest "usr-001" sampleItems := by
    simp [validCreateOrderRequest, sampleItems]; norm_num
  have h := createOrder_paymentSuccess_confirmed seededOrders "usr-001" sampleItems
    sampleUserCall (Except.ok (201, samplePayment)) "ord-new" "evt-1" 7
    { notificationOk := true, analyticsOk := true }
    { id := "usr-001", fullName := "John Doe" } samplePayment hv rfl rfl rfl
  refine ⟨hv, rfl, rfl, rfl, h.2.1, ?_⟩
  rw [h.1]

/-- Claim C1, amended: `PUT /orders/:id/status` performs no transition
check.  An unknown order id fails with 404 and a status string outside
`validStatuses` fails with 400 "Invalid status", both leaving the store
unchanged; but any status in the valid set is accepted from *any* current
status (the code never consults the current status), the order is updated,
and `OrderUpdated` is emitted. -/
theorem updateStatus_accepts_any_valid_status
    (store : List (String × Order)) (id statusStr eventId : String)
    (now : Nat) (out : DeliveryOutcome) :
    (storeGet store id = none →
       updateStatus store id statusStr eventId now out =
         (store, UpdateStatusResult.notFound, none)) ∧
    (∀ ord : Order, storeGet store id = some ord → statusOfString statusStr = none →
       updateStatus store id statusStr eventId now out =
         (store, UpdateStatusResult.invalidStatus, none)) ∧
    (∀ (ord : Order) (newStatus : OrderStatus),
       storeGet store id = some ord → statusOfString statusStr = some newStatus →
       updateStatus store id statusStr eventId now out =
         (storeSet store id { ord with status := newStatus, updatedAt := now },
          UpdateStatusResult.ok { ord with status := newStatus, updatedAt := now },
          some (emitEvent eventId now EventType.ORDER_UPDATED
            (EventPayload.orderUpdated id ord.userId newStatus newStatus) out))) := by
  refine ⟨?_, ?_, ?_⟩
  · intro h
    simp [updateStatus, h]
  · intro ord hord hs
    simp [updateStatus, hord, hs]
  · intro ord newStatus hord hs
    simp [updateStatus, hord, hs]

/-- Concrete instance of `updateStatus_accepts_any_valid_status`: the
seeded `pending` order `ord-002` is moved straight to `delivered` — a
transition the design document's state machine forbids — and the update
succeeds. -/
theorem updateStatus_accepts_any_valid_status_witness :
    storeGet seededOrders "ord-002" = some seededOrder002 ∧
    statusOfString "delivered" = some OrderStatus.delivered ∧
    updateStatus seededOrders "ord-002" "delivered" "evt-2" 9
        { notificationOk := true, analyticsOk := true } =
      (storeSet seededOrders "ord-002"
         { seededOrder002 with status := OrderStatus.delivered, updatedAt := 9 },
       UpdateStatusResult.ok
         { seededOrder002 with status := OrderStatus.delivered, updatedAt := 9 },
       some (emitEvent "evt-2" 9 EventType.ORDER_UPDATED
         (EventPayload.orderUpdated "ord-002" seededOrder002.userId
           OrderStatus.delivered OrderStatus.delivered)
         { notificationOk := true, analyticsOk := true })) :=
  ⟨rfl, rfl,
    (updateStatus_accepts_any_valid_status seededOrders "ord-002" "delivered" "evt-2" 9
      { notificationOk := true, analyticsOk := true }).2.2
      seededOrder002 OrderStatus.delivered rfl rfl⟩

/-- Counterexample to claim C1 as stated: starting from the seeded store,
`ord-001` is first moved to `shipped`; the claim says a subsequent
`shipped → pending` update must fail with `InvalidTransitionError` and
leave the status unchanged, but the code accepts it and persists status
`pending`. -/
theorem updateStatus_shipped_to_pending_succeeds :
    (storeGet (updateStatus seededOrders "ord-001" "shipped" "evt-a" 2
        { notificationOk := true, analyticsOk := true }).1 "ord-001").map Order.status =
      some OrderStatus.shipped ∧
    (updateStatus (updateStatus seededOrders "ord-001" "shipped" "evt-a" 2
        { notificationOk := true, analyticsOk := true }).1 "ord-001" "pending" "evt-b" 3
        { notificationOk := true, analyticsOk := true }).2.1 =
      UpdateStatusResult.ok
        { seededOrder001 with status := OrderStatus.pending, updatedAt := 3 } ∧
    (storeGet (updateStatus (updateStatus seededOrders "ord-001" "shipped" "evt-a" 2
        { notificationOk := true, analyticsOk := true }).1 "ord-001" "pending" "evt-b" 3
        { notificationOk := true, analyticsOk := true }).1 "ord-001").map Order.status =
      some OrderStatus.pending :=
  ⟨rfl, rfl, rfl⟩

/-- Claim C7 is violated by the code: `PUT /orders/:id/status` overwrites
`order.status` *before* building the `OrderUpdated` payload, so the payload
field `previousStatus: order.status` always carries the *new* status.  On
the seeded `pending` order `ord-002`, an update to `confirmed` emits
`previousStatus = confirmed`, not the pre-update `pending`. -/
theorem updateStatus_event_previousStatus_is_new_status :
    (storeGet seededOrders "ord-002").map Order.status = some OrderStatus.pending ∧
    ((updateStatus seededOrders "ord-002" "confirmed" "evt-c" 4
        { notificationOk := true, analyticsOk := true }).2.2.map
      fun emitted => emitted.1.payload) =
      some (EventPayload.orderUpdated "ord-002" "usr-002"
        OrderStatus.confirmed OrderStatus.confirmed) ∧
    EventPayload.orderUpdated "ord-002" "usr-002" OrderStatus.confirmed
        OrderStatus.confirmed ≠
      EventPayload.orderUpdated "ord-002" "usr-002" OrderStatus.confirmed
        OrderStatus.pending :=
  ⟨rfl, rfl, by simp⟩

/-- Claim C5: `POST /payments/:id/refund` answers 404 for an unknown
payment and 400 "Cannot refund" (the spec's `InvalidStateError`) whenever
the current status is anything but `completed` — in particular `pending`,
`failed` and `refunded` — leaving the store unchanged; a `completed`
payment is refunded exactly once: the refund sets status `refunded`, and
any second refund of the same payment hits the non-`completed` guard and
changes nothing. -/
theorem refundPayment_only_completed_and_once
    (store : List (String × Payment)) (id txnId eventId : String)
    (now : Nat) (out : DeliveryOutcome) :
    (storeGet store id = none →
       refundPayment store id txnId eventId now out =
         (store, RefundResult.notFound, none)) ∧
    (∀ p : Payment, storeGet store id = some p →
       p.status ≠ PaymentStatus.completed →
       refundPayment store id txnId eventId now out =
         (store, RefundResult.cannotRefund, none)) ∧
    (∀ p : Payment, storeGet store id = some p →
       p.status = PaymentStatus.completed →
       refundPayment store id txnId eventId now out =
         (storeSet store id
            { p with status := PaymentStatus.refunded,
                     refundedAt := some now, refundTransactionId := some txnId },
          RefundResult.refunded
            { p with status := PaymentStatus.refunded,
                     refundedAt := some now, refundTransactionId := some txnId },
          some (emitEvent eventId now EventType.PAYMENT_FAILED
            (EventPayload.paymentRefund id p.orderId "refund" p.amount now txnId)
            out)) ∧
       ∀ (txn2 eid2 : String) (t2 : Nat) (out2 : DeliveryOutcome),
         refundPayment
             (storeSet store id
               { p with status := PaymentStatus.refunded,
                        refundedAt := some now, refundTransactionId := some txnId })
             id txn2 eid2 t2 out2 =
           (storeSet store id
              { p with status := PaymentStatus.refunded,
                       refundedAt := some now, refundTransactionId := some txnId },
            RefundResult.cannotRefund, none)) := by
  refine ⟨?_, ?_, ?_⟩
  · intro h
    simp [refundPayment, h]
  · intro p hp hs
    simp [refundPayment, hp, hs]
  · intro p hp hs
    constructor
    · simp [refundPayment, hp, hs]
    · intro txn2 eid2 t2 out2
      simp [refundPayment, storeGet_storeSet_self]

/-- Concrete instance of `refundPayment_only_completed_and_once`: the
seeded completed payment `pay-001` is refunded once; the second attempt
fails and leaves the store as the first refund left it. -/
theorem refundPayment_only_completed_and_once_witness :
    storeGet seededPayments "pay-001" = some seededPay001 ∧
    seededPay001.status = PaymentStatus.completed ∧
    refundPayment seededPayments "pay-001" "txn-r" "evt-r" 9
        { notificationOk := true, analyticsOk := true } =
      (storeSet seededPayments "pay-001"
         { seededPay001 with status := PaymentStatus.refunded,
                             refundedAt := some 9, refundTransactionId := some "txn-r" },
       RefundResult.refunded
         { seededPay001 with status := PaymentStatus.refunded,
                             refundedAt := some 9, refundTransactionId := some "txn-r" },
       some (emitEvent "evt-r" 9 EventType.PAYMENT_FAILED
         (EventPayload.paymentRefund "pay-001" seededPay001.orderId "refund"
           seededPay001.amount 9 "txn-r")
         { notificationOk := true, analyticsOk := true })) ∧
    refundPayment
        (storeSet seededPayments "pay-001"
          { seededPay001 with status := PaymentStatus.refunded,
                              refundedAt := some 9, refundTransactionId := some "txn-r" })
        "pay-001" "txn-r2" "evt-r2" 10
        { notificationOk := false, analyticsOk := false } =
      (storeSet seededPayments "pay-001"
         { seededPay001 with status := PaymentStatus.refunded,
                             refundedAt := some 9, refundTransactionId := some "txn-r" },
       RefundResult.cannotRefund, none) := by
  have h := (refundPayment_only_completed_and_once seededPayments "pay-001" "txn-r"
    "evt-r" 9 { notificationOk := true, analyticsOk := true }).2.2 seededPay001 rfl rfl
  exact ⟨rfl, rfl, h.1, h.2 "txn-r2" "evt-r2" 10
    { notificationOk := false, analyticsOk := false }⟩

/-- Counterexample to claim C6 as stated: the successful refund of the
seeded completed payment `pay-001` emits an event of kind
`EventTypes.PAYMENT_FAILED` — not `PaymentRefunded` (the payment-service
banner itself documents "PaymentFailed (for refunds)"). -/
theorem refundPayment_emits_PAYMENT_FAILED :
    (refundPayment seededPayments "pay-001" "txn-r" "evt-r" 9
        { notificationOk := true, analyticsOk := true }).2.1 =
      RefundResult.refunded
        { seededPay001 with status := PaymentStatus.refunded,
                            refundedAt := some 9, refundTransactionId := some "txn-r" } ∧
    ((refundPayment seededPayments "pay-001" "txn-r" "evt-r" 9
        { notificationOk := true, analyticsOk := true }).2.2.map
      fun emitted => emitted.1.eventType) = some EventType.PAYMENT_FAILED ∧
    EventType.PAYMENT_FAILED ≠ EventType.PAYMENT_REFUNDED :=
  ⟨rfl, rfl, by simp⟩

/-- Claim C6, amended: a successful refund of a completed payment
transitions it to `refunded` and assigns the fresh refund transaction
reference, but the event emitted through the dispatcher has kind
`PaymentFailed` (the `EventTypes.PAYMENT_FAILED` constant, payload
`reason: 'refund'`), not `PaymentRefunded`. -/
theorem refundPayment_success_assigns_reference
    (store : List (String × Payment)) (id txnId eventId : String)
    (now : Nat) (out : DeliveryOutcome) (p : Payment)
    (hp : storeGet store id = some p)
    (hs : p.status = PaymentStatus.completed) :
    refundPayment store id txnId eventId now out =
      (storeSet store id
         { p with status := PaymentStatus.refunded,
                  refundedAt := some now, refundTransactionId := some txnId },
       RefundResult.refunded
         { p with status := PaymentStatus.refunded,
                  refundedAt := some now, refundTransactionId := some txnId },
       some (emitEvent eventId now EventType.PAYMENT_FAILED
         (EventPayload.paymentRefund id p.orderId "refund" p.amount now txnId)
         out)) ∧
    ({ p with status := PaymentStatus.refunded,
              refundedAt := some now,
              refundTransactionId := some txnId } : Payment).status =
      PaymentStatus.refunded ∧
    ({ p with status := PaymentStatus.refunded,
              refundedAt := some now,
              refundTransactionId := some txnId } : Payment).refundTransactionId =
      some txnId := by
  refine ⟨?_, rfl, rfl⟩
  simp [refundPayment, hp, hs]

/-- Concrete instance of `refundPayment_success_assigns_reference` on the
seeded payment `pay-001`. -/
theorem refundPayment_success_assigns_reference_witness :
    storeGet seededPayments "pay-001" = some seededPay001 ∧
    seededPay001.status = PaymentStatus.completed ∧
    refundPayment seededPayments "pay-001" "txn-z" "evt-z" 11
        { notificationOk := true, analyticsOk := false } =
      (storeSet seededPayments "pay-001"
         { seededPay001 with status := PaymentStatus.refunded,
                             refundedAt := some 11, refundTransactionId := some "txn-z" },
       RefundResult.refunded
         { seededPay001 with status := PaymentStatus.refunded,
                             refundedAt := some 11, refundTransactionId := some "txn-z" },
       some (emitEvent "evt-z" 11 EventType.PAYMENT_FAILED
         (EventPayload.paymentRefund "pay-001" seededPay001.orderId "refund"
           seededPay001.amount 11 "txn-z")
         { notificationOk := true, analyticsOk := false })) :=
  ⟨rfl, rfl,
    (refundPayment_success_assigns_reference seededPayments "pay-001" "txn-z" "evt-z" 11
      { notificationOk := true, analyticsOk := false } seededPay001 rfl rfl).1⟩

/-- Claim C9: for every published event, `emitEvent` attempts delivery to
both subscribers whatever each POST's outcome (the attempt list always
names notification-service then analytics-service), and the delivery
outcomes influence nothing else: the returned event, and — for each of the
publishing operations `POST /orders`, `PUT /orders/:id/status`,
`POST /payments` and `POST /payments/:id/refund` — the persisted store and
the client-visible result are identical for any two delivery outcomes. -/
theorem emitEvent_failures_isolated
    (eventId : String) (now : Nat) (ty : EventType) (pl : EventPayload)
    (o o' : DeliveryOutcome) :
    ((emitEvent eventId now ty pl o).2.map Attempt.subscriber =
       [Subscriber.notificationService, Subscriber.analyticsService]) ∧
    (emitEvent eventId now ty pl o).1 = (emitEvent eventId now ty pl o').1 ∧
    (∀ (store : List (String × Order)) (userId : String) (items : List Item)
        (uc : Except Unit (Nat × User)) (pc : Except Unit (Nat × Payment))
        (oid eid : String) (t : Nat),
      (createOrder store userId items uc pc oid eid t o).1 =
        (createOrder store userId items uc pc oid eid t o').1 ∧
      (createOrder store userId items uc pc oid eid t o).2.1 =
        (createOrder store userId items uc pc oid eid t o').2.1) ∧
    (∀ (store : List (String × Order)) (oid s eid : String) (t : Nat),
      (updateStatus store oid s eid t o).1 = (updateStatus store oid s eid t o').1 ∧
      (updateStatus store oid s eid t o).2.1 = (updateStatus store oid s eid t o').2.1) ∧
    (∀ (pstore : List (String × Payment)) (oid : String) (amt : ℚ)
        (cur mth : String) (processOk : Bool) (pid txn eid : String) (t : Nat),
      (postPayments pstore oid amt cur mth processOk pid txn eid t o).1 =
        (postPayments pstore oid amt cur mth processOk pid txn eid t o').1 ∧
      (postPayments pstore oid amt cur mth processOk pid txn eid t o).2.1 =
        (postPayments pstore oid amt cur mth processOk pid txn eid t o').2.1) ∧
    (∀ (pstore : List (String × Payment)) (pid txn eid : String) (t : Nat),
      (refundPayment pstore pid txn eid t o).1 = (refundPayment pstore pid txn eid t o').1 ∧
      (refundPayment pstore pid txn eid t o).2.1 =
        (refundPayment pstore pid txn eid t o').2.1) := by
  refine ⟨by simp [emitEvent], rfl, ?_, ?_, ?_, ?_⟩
  · intro store userId items uc pc oid eid t
    by_cases hv : validCreateOrderRequest userId items
    · cases hu : callOk uc with
      | none => simp [createOrder, hv, hu]
      | some u =>
          cases hp : callOk pc with
          | none => simp [createOrder, hv, hu, hp]
          | some p => simp [createOrder, hv, hu, hp]
    · simp [createOrder, hv]
  · intro store oid s eid t
    cases hg : storeGet store oid with
    | none => simp [updateStatus, hg]
    | some ord =>
        cases hs : statusOfString s with
        | none => simp [updateStatus, hg, hs]
        | some ns => simp [updateStatus, hg, hs]
  · intro pstore oid amt cur mth processOk pid txn eid t
    exact ⟨rfl, rfl⟩
  · intro pstore pid txn eid t
    cases hg : storeGet pstore pid with
    | none => simp [refundPayment, hg]
    | some p =>
        by_cases hs : p.status = PaymentStatus.completed
        · simp [refundPayment, hg, hs]
        · simp [refundPayment, hg, hs]

/-- Claim C10: when the user resolution of `POST /notify` succeeds, the
endpoint answers 201 for either outcome of the simulated channel delivery;
on a delivery failure the notification record stays in the store with
status `failed` (and no `sentAt`), and the failure is reported only inside
the 201 body, never as an error status. -/
theorem notify_201_even_when_delivery_fails
    (store : List (String × Notification)) (userId ntype subject message : String)
    (userCall : Except Unit (Nat × User)) (notificationId : String) (now : Nat)
    (u : User)
    (hvalid : validNotifyRequest userId ntype subject message)
    (huser : callOk userCall = some u) :
    (∀ delivered : Bool,
      notify store userId ntype subject message userCall delivered notificationId now =
        (storeSet
           (storeSet store notificationId
             { id := notificationId, userId := userId, ntype := ntype,
               subject := subject, message := message, status := "pending",
               createdAt := now, sentAt := none })
           notificationId
           { id := notificationId, userId := userId, ntype := ntype,
             subject := subject, message := message,
             status := if delivered then "sent" else "failed",
             createdAt := now, sentAt := if delivered then some now else none },
         NotifyResult.created 201
           { id := notificationId, userId := userId, ntype := ntype,
             subject := subject, message := message,
             status := if delivered then "sent" else "failed",
             createdAt := now, sentAt := if delivered then some now else none })) ∧
    storeGet (notify store userId ntype subject message userCall false
        notificationId now).1 notificationId =
      some { id := notificationId, userId := userId, ntype := ntype,
             subject := subject, message := message, status := "failed",
             createdAt := now, sentAt := none } := by
  constructor
  · intro delivered
    simp [notify, hvalid, huser]
  · simp [notify, hvalid, huser, storeGet_storeSet_self]

/-- Concrete instance of `notify_201_even_when_delivery_fails`: a valid
direct notification for the known user whose channel delivery fails still
gets a 201 with the record kept as `failed`. -/
theorem notify_201_even_when_delivery_fails_witness :
    validNotifyRequest "usr-001" "email" "Hello" "Hi there" ∧
    callOk sampleUserCall = some { id := "usr-001", fullName := "John Doe" } ∧
    notify [] "usr-001" "email" "Hello" "Hi there" sampleUserCall false "ntf-1" 6 =
      (storeSet
         (storeSet [] "ntf-1"
           { id := "ntf-1", userId := "usr-001", ntype := "email",
             subject := "Hello", message := "Hi there", status := "pending",
             createdAt := 6, sentAt := none })
         "ntf-1"
         { id := "ntf-1", userId := "usr-001", ntype := "email",
           subject := "Hello", message := "Hi there", status := "failed",
           createdAt := 6, sentAt := none },
       NotifyResult.created 201
         { id := "ntf-1", userId := "usr-001", ntype := "email",
           subject := "Hello", message := "Hi there", status := "failed",
           createdAt := 6, sentAt := none }) ∧
    storeGet (notify [] "usr-001" "email" "Hello" "Hi there" sampleUserCall false
        "ntf-1" 6).1 "ntf-1" =
      some { id := "ntf-1", userId := "usr-001", ntype := "email",
             subject := "Hello", message := "Hi there", status := "failed",
             createdAt := 6, sentAt := none } := by
  have hv : validNotifyRequest "usr-001" "email" "Hello" "Hi there" := by
    simp [validNotifyRequest]
  have h := notify_201_even_when_delivery_fails [] "usr-001" "email" "Hello"
    "Hi there" sampleUserCall "ntf-1" 6 { id := "usr-001", fullName := "John Doe" }
    hv rfl
  refine ⟨hv, rfl, ?_, h.2⟩
  have h1 := h.1 false
  simpa using h1
